import Mathlib

/-!
Shallow embedding of the `slack_serverless` Rust crate (webhook authentication,
request classification, routing, acknowledgment, and OAuth installation flow),
together with theorems checking the natural-language specification against it.

Modelling conventions:
* Rust `HashMap<String, String>` becomes an association list `List (String × String)`
  where insertion prepends (so the first match is the most recent insertion) and
  lookup takes the first match; this matches `get`/`contains_key`/`insert` semantics.
* `chrono::DateTime<Utc>` becomes `Int` (seconds); `Duration::minutes m` is `m * 60`.
  `Utc::now()` is passed in as an explicit `now` parameter.
* External collaborators (the HMAC-SHA256 primitive from the `hmac`/`sha2` crates,
  `serde_json` serialization/deserialization, the network side of the OAuth code
  exchange, random token generation) are parameters of the functions that call them.
* Fallible Rust code returning `Result<T, SlackError>` becomes `Except SlackError T`;
  stateful store operations pass the store value explicitly.
-/

namespace SlackServerless

/-- Error taxonomy from src/error.rs (variants carrying external-crate error values
keep only the message string). -/
inductive SlackError where
  | Http (msg : String)
  | Json (msg : String)
  | DynamoDb (msg : String)
  | Lambda (msg : String)
  | InvalidSignature
  | MissingEnvVar (name : String)
  | OAuth (msg : String)
  | SlackApi (code message : String)
  | Config (msg : String)
  | UrlParse (msg : String)
  | Internal (msg : String)
  deriving Repr, DecidableEq

/-- Opaque JSON value (`serde_json::Value`) — the claims never inspect these, so the
raw text suffices. -/
abbrev JsonValue := String

/-- Event API request body, from src/request/mod.rs. -/
structure EventRequest where
  token : String
  team_id : String
  api_app_id : String
  event : JsonValue
  event_type : String
  event_time : Nat
  challenge : Option String
  deriving Repr, DecidableEq

/-- Slash command request body, from src/request/mod.rs. -/
structure CommandRequest where
  token : String
  team_id : String
  team_domain : String
  channel_id : String
  channel_name : String
  user_id : String
  user_name : String
  command : String
  text : String
  response_url : String
  trigger_id : String
  deriving Repr, DecidableEq

/-- Interactive component request body, from src/request/mod.rs. -/
structure InteractiveRequest where
  token : String
  team : JsonValue
  user : JsonValue
  channel : Option JsonValue
  message : Option JsonValue
  actions : List JsonValue
  callback_id : Option String
  trigger_id : String
  response_url : String
  deriving Repr, DecidableEq

/-- OAuth callback request body, from src/request/mod.rs. -/
structure OAuthRequest where
  code : Option String
  state : Option String
  error : Option String
  deriving Repr, DecidableEq

/-- The closed body variant of an inbound request, from src/request/mod.rs. -/
inductive SlackRequestBody where
  | Event (e : EventRequest)
  | Command (c : CommandRequest)
  | Interactive (i : InteractiveRequest)
  | OAuth (o : OAuthRequest)
  | Raw (s : String)
  deriving Repr, DecidableEq

/-- Inbound request, from src/request/mod.rs. -/
structure SlackRequest where
  method : String
  path : String
  headers : List (String × String)
  query_params : List (String × String)
  body : SlackRequestBody
  deriving Repr, DecidableEq

/-- Text response body, from src/response/mod.rs. -/
structure TextResponse where
  text : String
  response_type : Option String
  replace_original : Option Bool
  delete_original : Option Bool
  deriving Repr, DecidableEq

/-- Blocks response body, from src/response/mod.rs. -/
structure BlocksResponse where
  blocks : List JsonValue
  text : Option String
  response_type : Option String
  replace_original : Option Bool
  delete_original : Option Bool
  deriving Repr, DecidableEq

/-- Challenge-echo response body, from src/response/mod.rs. -/
structure ChallengeResponse where
  challenge : String
  deriving Repr, DecidableEq

/-- OAuth response body, from src/response/mod.rs. -/
structure OAuthResponse where
  url : String
  deriving Repr, DecidableEq

/-- Response body variants, from src/response/mod.rs. -/
inductive SlackResponseBody where
  | Text (t : TextResponse)
  | Blocks (b : BlocksResponse)
  | Challenge (c : ChallengeResponse)
  | OAuth (o : OAuthResponse)
  | Empty
  deriving Repr, DecidableEq

/-- Outbound response, from src/response/mod.rs. -/
structure SlackResponse where
  status_code : Nat
  headers : List (String × String)
  body : SlackResponseBody
  deriving Repr, DecidableEq

/-- `SlackResponse::empty()` from src/response/mod.rs. -/
def SlackResponse.empty : SlackResponse :=
  { status_code := 200, headers := [], body := .Empty }

/-- `SlackResponse::text()` from src/response/mod.rs. -/
def SlackResponse.text (t : String) : SlackResponse :=
  { status_code := 200, headers := [],
    body := .Text { text := t, response_type := none,
                    replace_original := none, delete_original := none } }

/-- `SlackResponse::challenge()` from src/response/mod.rs. -/
def SlackResponse.challenge (c : String) : SlackResponse :=
  { status_code := 200, headers := [], body := .Challenge { challenge := c } }

/-- `SlackResponse::redirect()` from src/response/mod.rs. -/
def SlackResponse.redirect (url : String) : SlackResponse :=
  { status_code := 302, headers := [("Location", url)], body := .Empty }

/-- `HashMap::get` on the association-list model: first (most recent) match. -/
def hashGet (m : List (String × String)) (k : String) : Option String :=
  (m.find? (fun p => p.1 == k)).map (fun p => p.2)

/-- Lower-case hex digit, as produced by `hex::encode`. -/
def hexDigit (n : Nat) : Char :=
  if n < 10 then Char.ofNat (48 + n) else Char.ofNat (87 + n)

/-- `hex::encode` on a byte list: two lower-case hex digits per byte. -/
def hexEncode (bytes : List Nat) : String :=
  String.mk (bytes.foldr
    (fun b acc => hexDigit (b / 16 % 16) :: hexDigit (b % 16) :: acc) [])

/-- Body string used by `verify_signature`: `Raw` bodies verbatim, any other
variant re-serialized with `serde_json::to_string` (passed in as a parameter). -/
def bodyString (serializeBody : SlackRequestBody → String) :
    SlackRequestBody → String
  | .Raw raw => raw
  | other => serializeBody other

/-- `LambdaHandler::verify_signature` from src/adapter/aws_lambda.rs, lines 170-199,
with the HMAC-SHA256 primitive (secret, message → byte list) as a parameter. -/
def verify_signature (hmacSha256 : String → String → List Nat)
    (serializeBody : SlackRequestBody → String)
    (signing_secret : String) (request : SlackRequest) : Except SlackError Unit :=
  match hashGet request.headers "x-slack-request-timestamp" with
  | none => .error .InvalidSignature
  | some timestamp =>
    match hashGet request.headers "x-slack-signature" with
    | none => .error .InvalidSignature
    | some signature =>
      let body := bodyString serializeBody request.body
      let basestring := "v0:" ++ timestamp ++ ":" ++ body
      let computed_signature :=
        "v0=" ++ hexEncode (hmacSha256 signing_secret basestring)
      if computed_signature ≠ signature then .error .InvalidSignature
      else .ok ()

/-- C1: Signature verification contract — verification succeeds exactly on the
signature "v0=" ++ hex(HMAC-SHA256(secret, "v0:" ++ timestamp ++ ":" ++ body)):
it succeeds when the supplied signature header equals that value, fails with
`InvalidSignature` when either header is missing, and fails with
`InvalidSignature` whenever the supplied signature differs from the value
computed over the raw body bytes. -/
theorem verify_signature_contract
    (hmacSha256 : String → String → List Nat)
    (serializeBody : SlackRequestBody → String)
    (S : String) (req : SlackRequest) (B t : String) :
    (req.body = .Raw B →
      hashGet req.headers "x-slack-request-timestamp" = some t →
      hashGet req.headers "x-slack-signature" =
        some ("v0=" ++ hexEncode (hmacSha256 S ("v0:" ++ t ++ ":" ++ B))) →
      verify_signature hmacSha256 serializeBody S req = .ok ())
    ∧
    (hashGet req.headers "x-slack-request-timestamp" = none ∨
      hashGet req.headers "x-slack-signature" = none →
      verify_signature hmacSha256 serializeBody S req = .error .InvalidSignature)
    ∧
    (∀ s, req.body = .Raw B →
      hashGet req.headers "x-slack-request-timestamp" = some t →
      hashGet req.headers "x-slack-signature" = some s →
      s ≠ "v0=" ++ hexEncode (hmacSha256 S ("v0:" ++ t ++ ":" ++ B)) →
      verify_signature hmacSha256 serializeBody S req = .error .InvalidSignature) := by
  refine ⟨?_, ?_, ?_⟩
  · intro hb ht hs
    simp [verify_signature, ht, hs, hb, bodyString]
  · intro h
    rcases h with h | h
    · simp [verify_signature, h]
    · cases hts : hashGet req.headers "x-slack-request-timestamp" with
      | none => simp [verify_signature, hts]
      | some ts => simp [verify_signature, hts, h]
  · intro s hb ht hs hne
    simp only [verify_signature, ht, hs, hb, bodyString]
    rw [if_pos (fun h => hne h.symm)]

/-- Witness for C1: a concrete request carrying the correctly computed signature
verifies successfully. -/
theorem verify_signature_contract_witness :
    verify_signature (fun _ _ => [0]) (fun _ => "") "secret"
      { method := "POST", path := "/", query_params := [],
        headers := [("x-slack-request-timestamp", "123"),
                    ("x-slack-signature", "v0=00")],
        body := .Raw "hello" } = .ok () := by
  have h := (verify_signature_contract (fun _ _ => [0]) (fun _ => "") "secret"
    { method := "POST", path := "/", query_params := [],
      headers := [("x-slack-request-timestamp", "123"),
                  ("x-slack-signature", "v0=00")],
      body := .Raw "hello" } "hello" "123").1
  exact h rfl (by decide) (by decide)

/-- Check whether `p` is an initial segment of the second list. -/
def startsWithCh : List Char → List Char → Bool
  | [], _ => true
  | _ :: _, [] => false
  | p :: ps, c :: cs => p == c && startsWithCh ps cs

/-- Check whether `pat` occurs as a contiguous sublist. -/
def hasSub (pat : List Char) : List Char → Bool
  | [] => startsWithCh pat []
  | c :: cs => startsWithCh pat (c :: cs) || hasSub pat cs

/-- Rust `str::contains` (substring test). -/
def strContains (s pat : String) : Bool :=
  hasSub pat.data s.data

/-- ASCII lower-casing, modelling Rust `str::to_lowercase` on the ASCII header
values this code compares against. -/
def lowerAscii (s : String) : String :=
  String.mk (s.data.map Char.toLower)

/-- UTF-8 encoding of one Unicode scalar value, as the bytes of a Rust `str`. -/
def utf8EncodeChar (c : Char) : List Nat :=
  let n := c.toNat
  if n < 128 then [n]
  else if n < 2048 then [192 + n / 64, 128 + n % 64]
  else if n < 65536 then [224 + n / 4096, 128 + n / 64 % 64, 128 + n % 64]
  else [240 + n / 262144, 128 + n / 4096 % 64, 128 + n / 64 % 64, 128 + n % 64]

/-- UTF-8 bytes of a string (the byte slice `urlencoding::decode` scans). -/
def utf8Encode (s : String) : List Nat :=
  s.data.foldr (fun c acc => utf8EncodeChar c ++ acc) []

/-- Value of an ASCII hex-digit byte, either case (as accepted by
`urlencoding::decode`). -/
def hexDigitVal (b : Nat) : Option Nat :=
  if 48 ≤ b ∧ b ≤ 57 then some (b - 48)
  else if 97 ≤ b ∧ b ≤ 102 then some (b - 87)
  else if 65 ≤ b ∧ b ≤ 70 then some (b - 55)
  else none

/-- Percent-decoding on bytes, as `urlencoding::decode` performs it before
UTF-8 validation: byte 37 (`%`) followed by two hex digits becomes that byte;
an invalid escape is kept verbatim, rescanning from the byte after the `%`. -/
def percentDecodeBytes : List Nat → List Nat
  | [] => []
  | 37 :: b1 :: b2 :: rest =>
    match hexDigitVal b1, hexDigitVal b2 with
    | some hi, some lo => (hi * 16 + lo) :: percentDecodeBytes rest
    | _, _ => 37 :: percentDecodeBytes (b1 :: b2 :: rest)
  | b :: rest => b :: percentDecodeBytes rest

/-- Strict UTF-8 decoding of a byte list (Rust `String::from_utf8`): rejects
stray or missing continuation bytes, overlong encodings, surrogates, and
scalar values past U+10FFFF. -/
def utf8DecodeCh : List Nat → Option (List Char)
  | [] => some []
  | b :: rest =>
    if b < 128 then
      match utf8DecodeCh rest with
      | some cs => some (Char.ofNat b :: cs)
      | none => none
    else if b < 192 then none
    else if b < 224 then
      match rest with
      | b1 :: rest1 =>
        if 128 ≤ b1 ∧ b1 < 192 then
          let cp := (b - 192) * 64 + (b1 - 128)
          if 128 ≤ cp then
            match utf8DecodeCh rest1 with
            | some cs => some (Char.ofNat cp :: cs)
            | none => none
          else none
        else none
      | [] => none
    else if b < 240 then
      match rest with
      | b1 :: b2 :: rest2 =>
        if (128 ≤ b1 ∧ b1 < 192) ∧ (128 ≤ b2 ∧ b2 < 192) then
          let cp := (b - 224) * 4096 + (b1 - 128) * 64 + (b2 - 128)
          if 2048 ≤ cp ∧ ¬(55296 ≤ cp ∧ cp < 57344) then
            match utf8DecodeCh rest2 with
            | some cs => some (Char.ofNat cp :: cs)
            | none => none
          else none
        else none
      | _ => none
    else if b < 248 then
      match rest with
      | b1 :: b2 :: b3 :: rest3 =>
        if (128 ≤ b1 ∧ b1 < 192) ∧ (128 ≤ b2 ∧ b2 < 192) ∧ (128 ≤ b3 ∧ b3 < 192) then
          let cp := (b - 240) * 262144 + (b1 - 128) * 4096
            + (b2 - 128) * 64 + (b3 - 128)
          if 65536 ≤ cp ∧ cp < 1114112 then
            match utf8DecodeCh rest3 with
            | some cs => some (Char.ofNat cp :: cs)
            | none => none
          else none
        else none
      | _ => none
    else none

/-- `urlencoding::decode` on strings: percent-decode the UTF-8 bytes, then
re-validate as UTF-8; `none` is the `FromUtf8Error` case. -/
def urldecode (s : String) : Option String :=
  (utf8DecodeCh (percentDecodeBytes (utf8Encode s))).map String.mk

/-- Rust `str::split_once(sep)`: split at the first occurrence of `sep`. -/
def splitOnceCh (sep : Char) : List Char → Option (List Char × List Char)
  | [] => none
  | c :: rest =>
    if c == sep then some ([], rest)
    else
      match splitOnceCh sep rest with
      | some (k, v) => some (c :: k, v)
      | none => none

/-- Rust `str::split_once(sep)` on strings. -/
def splitOnce (sep : Char) (s : String) : Option (String × String) :=
  (splitOnceCh sep s.data).map (fun p => (String.mk p.1, String.mk p.2))

/-- Rust `str::split(sep)` on character lists (`"".split(sep)` yields one empty
piece, matching Rust). -/
def splitCh (sep : Char) : List Char → List (List Char)
  | [] => [[]]
  | c :: rest =>
    if c == sep then [] :: splitCh sep rest
    else
      match splitCh sep rest with
      | h :: t => (c :: h) :: t
      | [] => [[c]]

/-- Loop body of `LambdaHandler::parse_form_data`: process the `&`-separated
pairs in order, decoding key then value and propagating the first decode
failure (the `map_err(...)?` in the source). -/
def parse_form_data_loop : List (List Char) → List (String × String) →
    Except SlackError (List (String × String))
  | [], form_data => .ok form_data
  | pair :: pairs, form_data =>
    match splitOnceCh '=' pair with
    | some (key, value) =>
      match urldecode (String.mk key) with
      | none => .error (.Internal "Failed to decode form key")
      | some decoded_key =>
        match urldecode (String.mk value) with
        | none => .error (.Internal "Failed to decode form value")
        | some decoded_value =>
          parse_form_data_loop pairs ((decoded_key, decoded_value) :: form_data)
    | none => parse_form_data_loop pairs form_data

/-- `LambdaHandler::parse_form_data` from src/adapter/aws_lambda.rs, lines
156-168: split on `&`, split each pair at the first `=` (pairs without `=` are
skipped), percent-decode key and value — a decode failure becomes
`Internal("Failed to decode form key"/"value")` — and insert into the map
(later pairs overwrite earlier ones, which the association-list model realizes
by prepending). -/
def parse_form_data (body : String) : Except SlackError (List (String × String)) :=
  parse_form_data_loop (splitCh '&' body.data) []

/-- Content type resolution from `LambdaHandler::parse_body`, lines 107-110:
`headers.get("content-type").or_else(|| headers.get("Content-Type"))`, default
empty, lower-cased. -/
def contentTypeOf (headers : List (String × String)) : String :=
  lowerAscii (((hashGet headers "content-type").orElse
    (fun _ => hashGet headers "Content-Type")).getD "")

/-- `LambdaHandler::parse_body` from src/adapter/aws_lambda.rs, lines 106-154,
with the two `serde_json::from_str` deserializers as parameters. -/
def parse_body
    (parseEventJson : String → Except SlackError EventRequest)
    (parseInteractiveJson : String → Except SlackError InteractiveRequest)
    (body : String) (headers : List (String × String)) :
    Except SlackError SlackRequestBody :=
  let content_type := contentTypeOf headers
  if strContains content_type "application/json" then
    Except.map SlackRequestBody.Event (parseEventJson body)
  else if strContains content_type "application/x-www-form-urlencoded" then
    match parse_form_data body with
    | .error e => .error e
    | .ok form_data =>
    match hashGet form_data "payload" with
    | some payload =>
      Except.map SlackRequestBody.Interactive (parseInteractiveJson payload)
    | none =>
      if (hashGet form_data "command").isSome then
        .ok (.Command
          { token := (hashGet form_data "token").getD ""
            team_id := (hashGet form_data "team_id").getD ""
            team_domain := (hashGet form_data "team_domain").getD ""
            channel_id := (hashGet form_data "channel_id").getD ""
            channel_name := (hashGet form_data "channel_name").getD ""
            user_id := (hashGet form_data "user_id").getD ""
            user_name := (hashGet form_data "user_name").getD ""
            command := (hashGet form_data "command").getD ""
            text := (hashGet form_data "text").getD ""
            response_url := (hashGet form_data "response_url").getD ""
            trigger_id := (hashGet form_data "trigger_id").getD "" })
      else if (hashGet form_data "code").isSome
          || (hashGet form_data "error").isSome then
        .ok (.OAuth
          { code := hashGet form_data "code"
            state := hashGet form_data "state"
            error := hashGet form_data "error" })
      else
        .ok (.Raw body)
  else
    .ok (.Raw body)

/-- C4: Classification is deterministic (parse_body is a function: each
(content type, body) pair yields exactly one result) and follows the stated
priority order: JSON content parses as Event; a form-encoded body is
percent-decoded into a string map — a decode failure surfaces as the
propagated error — and a successfully decoded map is classified payload >
command > code/error > Raw; any other content type yields Raw unconditionally;
the Raw branches are unconditional `.ok`, the only variants with no parse
failure mode of their own. -/
theorem parse_body_classification
    (pe : String → Except SlackError EventRequest)
    (pi : String → Except SlackError InteractiveRequest)
    (body : String) (headers : List (String × String)) :
    (strContains (contentTypeOf headers) "application/json" = true →
      parse_body pe pi body headers = Except.map SlackRequestBody.Event (pe body))
    ∧
    (strContains (contentTypeOf headers) "application/json" = false →
      strContains (contentTypeOf headers) "application/x-www-form-urlencoded" = true →
      ((∀ e, parse_form_data body = .error e →
          parse_body pe pi body headers = .error e)
       ∧
       (∀ fd, parse_form_data body = .ok fd →
         ((∀ p, hashGet fd "payload" = some p →
             parse_body pe pi body headers =
               Except.map SlackRequestBody.Interactive (pi p))
          ∧
          (hashGet fd "payload" = none →
           (hashGet fd "command").isSome = true →
             parse_body pe pi body headers = .ok (.Command
               { token := (hashGet fd "token").getD ""
                 team_id := (hashGet fd "team_id").getD ""
                 team_domain := (hashGet fd "team_domain").getD ""
                 channel_id := (hashGet fd "channel_id").getD ""
                 channel_name := (hashGet fd "channel_name").getD ""
                 user_id := (hashGet fd "user_id").getD ""
                 user_name := (hashGet fd "user_name").getD ""
                 command := (hashGet fd "command").getD ""
                 text := (hashGet fd "text").getD ""
                 response_url := (hashGet fd "response_url").getD ""
                 trigger_id := (hashGet fd "trigger_id").getD "" }))
          ∧
          (hashGet fd "payload" = none →
           (hashGet fd "command").isSome = false →
           ((hashGet fd "code").isSome || (hashGet fd "error").isSome) = true →
             parse_body pe pi body headers = .ok (.OAuth
               { code := hashGet fd "code"
                 state := hashGet fd "state"
                 error := hashGet fd "error" }))
          ∧
          (hashGet fd "payload" = none →
           (hashGet fd "command").isSome = false →
           ((hashGet fd "code").isSome || (hashGet fd "error").isSome) = false →
             parse_body pe pi body headers = .ok (.Raw body))))))
    ∧
    (strContains (contentTypeOf headers) "application/json" = false →
      strContains (contentTypeOf headers) "application/x-www-form-urlencoded" = false →
      parse_body pe pi body headers = .ok (.Raw body)) := by
  refine ⟨?_, ?_, ?_⟩
  · intro hj
    simp [parse_body, hj]
  · intro hj hf
    refine ⟨?_, ?_⟩
    · intro e he
      simp [parse_body, hj, hf, he]
    · intro fd hfd
      refine ⟨?_, ?_, ?_, ?_⟩
      · intro p hp
        simp [parse_body, hj, hf, hfd, hp]
      · intro hp hc
        simp [parse_body, hj, hf, hfd, hp, hc]
      · intro hp hc hoe
        simp [parse_body, hj, hf, hfd, hp, hc, hoe]
      · intro hp hc hoe
        simp [parse_body, hj, hf, hfd, hp, hc, hoe]
  · intro hj hf
    simp [parse_body, hj, hf]

/-- Witness for C4: a concrete form-encoded body with a `command` key and a
percent-encoded value classifies as the expected Command variant. -/
theorem parse_body_classification_witness :
    parse_body (fun _ => .error (.Internal "e")) (fun _ => .error (.Internal "e"))
      "command=%2Fhello&text=hi"
      [("content-type", "application/x-www-form-urlencoded")] =
      .ok (.Command
        { token := "", team_id := "", team_domain := "", channel_id := "",
          channel_name := "", user_id := "", user_name := "",
          command := "/hello", text := "hi", response_url := "",
          trigger_id := "" }) := by
  have h := ((((parse_body_classification
      (fun _ => .error (.Internal "e")) (fun _ => .error (.Internal "e"))
      "command=%2Fhello&text=hi"
      [("content-type", "application/x-www-form-urlencoded")]).2.1
      (by decide) (by decide)).2
      [("text", "hi"), ("command", "/hello")] (by rfl)).2.1
      (by decide) (by decide))
  exact h.trans (by rfl)

/-- C8: Command defaulting — whenever the form-encoded classification reaches
the command branch, a CommandPayload is built in which every field is the form
value defaulted to the empty string when absent; in particular a body missing
`channel_name` yields `channel_name = ""`; the construction is total (never a
parse error). -/
theorem command_defaulting
    (pe : String → Except SlackError EventRequest)
    (pi : String → Except SlackError InteractiveRequest)
    (body : String) (headers : List (String × String))
    (fd : List (String × String))
    (hj : strContains (contentTypeOf headers) "application/json" = false)
    (hf : strContains (contentTypeOf headers) "application/x-www-form-urlencoded" = true)
    (hfd : parse_form_data body = .ok fd)
    (hp : hashGet fd "payload" = none)
    (hc : (hashGet fd "command").isSome = true) :
    ∃ cr : CommandRequest,
      parse_body pe pi body headers = .ok (.Command cr)
      ∧ cr.token = (hashGet fd "token").getD ""
      ∧ cr.team_id = (hashGet fd "team_id").getD ""
      ∧ cr.team_domain = (hashGet fd "team_domain").getD ""
      ∧ cr.channel_id = (hashGet fd "channel_id").getD ""
      ∧ cr.channel_name = (hashGet fd "channel_name").getD ""
      ∧ cr.user_id = (hashGet fd "user_id").getD ""
      ∧ cr.user_name = (hashGet fd "user_name").getD ""
      ∧ cr.command = (hashGet fd "command").getD ""
      ∧ cr.text = (hashGet fd "text").getD ""
      ∧ cr.response_url = (hashGet fd "response_url").getD ""
      ∧ cr.trigger_id = (hashGet fd "trigger_id").getD ""
      ∧ (hashGet fd "channel_name" = none →
          cr.channel_name = "") := by
  refine ⟨{ token := (hashGet fd "token").getD ""
            team_id := (hashGet fd "team_id").getD ""
            team_domain := (hashGet fd "team_domain").getD ""
            channel_id := (hashGet fd "channel_id").getD ""
            channel_name := (hashGet fd "channel_name").getD ""
            user_id := (hashGet fd "user_id").getD ""
            user_name := (hashGet fd "user_name").getD ""
            command := (hashGet fd "command").getD ""
            text := (hashGet fd "text").getD ""
            response_url := (hashGet fd "response_url").getD ""
            trigger_id := (hashGet fd "trigger_id").getD "" },
          ?_, rfl, rfl, rfl, rfl, rfl, rfl, rfl, rfl, rfl, rfl, rfl, ?_⟩
  · simp [parse_body, hj, hf, hfd, hp, hc]
  · intro hnone
    simp [hnone]

/-- Witness for C8: a concrete form body with no `channel_name` field yields a
CommandPayload whose `channel_name` is the empty string. -/
theorem command_defaulting_witness :
    ∃ cr : CommandRequest,
      parse_body (fun _ => .error (.Internal "e")) (fun _ => .error (.Internal "e"))
        "command=%2Fdeploy&user_id=U1"
        [("content-type", "application/x-www-form-urlencoded")] =
        .ok (.Command cr)
      ∧ cr.channel_name = "" := by
  obtain ⟨cr, heq, _, _, _, _, _, _, _, _, _, _, _, himp⟩ := command_defaulting
    (fun _ => .error (.Internal "e")) (fun _ => .error (.Internal "e"))
    "command=%2Fdeploy&user_id=U1"
    [("content-type", "application/x-www-form-urlencoded")]
    [("user_id", "U1"), ("command", "/deploy")]
    (by decide) (by decide) (by rfl) (by decide) (by decide)
  exact ⟨cr, heq, himp (by decide)⟩

/-- `EventRouter` from src/listener/mod.rs, polymorphic over the handler type
(the Rust handlers are closures; no claim inspects them). -/
structure EventRouter (H : Type) where
  event_handlers : List (String × List H)
  command_handlers : List (String × List H)
  action_handlers : List (String × List H)
  shortcut_handlers : List (String × List H)
  message_handlers : List H

/-- `EventRouter::route_request` from src/listener/mod.rs, lines 67-72: the
placeholder implementation returns `Ok(None)` unconditionally. -/
def EventRouter.route_request {H : Type} (_router : EventRouter H)
    (_request : SlackRequest) : Except SlackError (Option SlackResponse) :=
  .ok none

/-- Shared shape of `LambdaHandler::handle_event_request`,
`handle_command_request` and `handle_interactive_request` from
src/adapter/aws_lambda.rs, lines 201-235: route through the app's router and
fall back to an empty 200 on no match. The router call is a parameter so that
theorems can quantify over every routing function. -/
def handle_routed_request
    (route : SlackRequest → Except SlackError (Option SlackResponse))
    (request : SlackRequest) : Except SlackError SlackResponse :=
  match route request with
  | .error e => .error e
  | .ok (some response) => .ok response
  | .ok none => .ok SlackResponse.empty

/-- `LambdaHandler::handle_oauth_request` from src/adapter/aws_lambda.rs, lines
237-271; `oauthEnabled` is `self.app.oauth_settings().is_some()`. -/
def handle_oauth_request (oauthEnabled : Bool) (oauth_req : OAuthRequest) :
    Except SlackError SlackResponse :=
  if oauthEnabled then
    match oauth_req.error with
    | some err =>
      .ok { status_code := 400, headers := [],
            body := .Text { text := "OAuth error: " ++ err,
                            response_type := none, replace_original := none,
                            delete_original := none } }
    | none =>
      match oauth_req.code, oauth_req.state with
      | some _, some _ => .ok (SlackResponse.text "Installation successful!")
      | _, _ => .ok (SlackResponse.redirect "https://slack.com/oauth/v2/authorize")
  else
    .ok { status_code := 404, headers := [], body := .Empty }

/-- `LambdaHandler::process_request` from src/adapter/aws_lambda.rs, lines
50-86, starting from the already-converted `SlackRequest`: verify the
signature (rejecting with an empty 401 on failure), short-circuit Event
challenges, then dispatch by body variant. -/
def process_request
    (hmacSha256 : String → String → List Nat)
    (serializeBody : SlackRequestBody → String)
    (signing_secret : String) (oauthEnabled : Bool)
    (route : SlackRequest → Except SlackError (Option SlackResponse))
    (slack_request : SlackRequest) : Except SlackError SlackResponse :=
  match verify_signature hmacSha256 serializeBody signing_secret slack_request with
  | .error _ =>
    .ok { status_code := 401, headers := [], body := .Empty }
  | .ok _ =>
    match slack_request.body with
    | .Event event_req =>
      match event_req.challenge with
      | some challenge => .ok (SlackResponse.challenge challenge)
      | none => handle_routed_request route slack_request
    | .Command _ => handle_routed_request route slack_request
    | .Interactive _ => handle_routed_request route slack_request
    | .OAuth oauth_req => handle_oauth_request oauthEnabled oauth_req
    | .Raw _ => .ok SlackResponse.empty

/-- C3: Challenge short-circuit — a signature-verified Event request whose
challenge field carries a non-empty string is answered with HTTP 200 and a body
carrying the same challenge string, for every routing function alike (so no
registered handler is consulted or invoked, before any handler lookup). -/
theorem challenge_short_circuit
    (hmacSha256 : String → String → List Nat)
    (serializeBody : SlackRequestBody → String)
    (signing_secret : String) (oauthEnabled : Bool)
    (route : SlackRequest → Except SlackError (Option SlackResponse))
    (req : SlackRequest) (event_req : EventRequest) (c : String)
    (hbody : req.body = .Event event_req)
    (hch : event_req.challenge = some c)
    (_hne : c ≠ "")
    (hver : verify_signature hmacSha256 serializeBody signing_secret req = .ok ()) :
    process_request hmacSha256 serializeBody signing_secret oauthEnabled route req
      = .ok (SlackResponse.challenge c)
    ∧ (SlackResponse.challenge c).status_code = 200
    ∧ (SlackResponse.challenge c).body = .Challenge { challenge := c } := by
  refine ⟨?_, rfl, rfl⟩
  simp [process_request, hver, hbody, hch]

/-- Witness for C3: a concrete verified url_verification request is answered
with the echoed challenge, here with a routing function that would answer
anything it is asked. -/
theorem challenge_short_circuit_witness :
    process_request (fun _ _ => []) (fun _ => "B") "secret" false
      (fun _ => .ok (some (SlackResponse.text "handler ran")))
      { method := "POST", path := "/", query_params := [],
        headers := [("x-slack-request-timestamp", "1"),
                    ("x-slack-signature", "v0=")],
        body := .Event { token := "t", team_id := "T1", api_app_id := "A1",
                         event := "", event_type := "url_verification",
                         event_time := 0, challenge := some "abc123" } }
      = .ok (SlackResponse.challenge "abc123") := by
  have h := challenge_short_circuit (fun _ _ => []) (fun _ => "B") "secret" false
    (fun _ => .ok (some (SlackResponse.text "handler ran")))
    { method := "POST", path := "/", query_params := [],
      headers := [("x-slack-request-timestamp", "1"),
                  ("x-slack-signature", "v0=")],
      body := .Event { token := "t", team_id := "T1", api_app_id := "A1",
                       event := "", event_type := "url_verification",
                       event_time := 0, challenge := some "abc123" } }
    { token := "t", team_id := "T1", api_app_id := "A1",
      event := "", event_type := "url_verification",
      event_time := 0, challenge := some "abc123" }
    "abc123" rfl rfl (by decide) (by rfl)
  exact h.1

/-- C6: Placeholder routing — `EventRouter::route_request` returns `Ok(None)`
for every set of registered handlers and every request, and consequently every
verified non-challenge Event, Command, or Interactive request is answered with
the empty HTTP 200 response, never a handler-produced one. -/
theorem placeholder_routing
    {H : Type} (router : EventRouter H)
    (hmacSha256 : String → String → List Nat)
    (serializeBody : SlackRequestBody → String)
    (signing_secret : String) (oauthEnabled : Bool)
    (req : SlackRequest)
    (hver : verify_signature hmacSha256 serializeBody signing_secret req = .ok ()) :
    (∀ r : SlackRequest, router.route_request r = .ok none)
    ∧
    (∀ event_req : EventRequest, req.body = .Event event_req →
      event_req.challenge = none →
      process_request hmacSha256 serializeBody signing_secret oauthEnabled
        router.route_request req = .ok SlackResponse.empty)
    ∧
    (∀ command_req : CommandRequest, req.body = .Command command_req →
      process_request hmacSha256 serializeBody signing_secret oauthEnabled
        router.route_request req = .ok SlackResponse.empty)
    ∧
    (∀ interactive_req : InteractiveRequest, req.body = .Interactive interactive_req →
      process_request hmacSha256 serializeBody signing_secret oauthEnabled
        router.route_request req = .ok SlackResponse.empty) := by
  refine ⟨fun _ => rfl, ?_, ?_, ?_⟩
  · intro event_req hbody hch
    simp [process_request, hver, hbody, hch, handle_routed_request,
      EventRouter.route_request]
  · intro command_req hbody
    simp [process_request, hver, hbody, handle_routed_request,
      EventRouter.route_request]
  · intro interactive_req hbody
    simp [process_request, hver, hbody, handle_routed_request,
      EventRouter.route_request]

/-- Witness for C6: a router with a registered command handler still yields the
empty 200 for a verified slash-command request. -/
theorem placeholder_routing_witness :
    process_request (fun _ _ => []) (fun _ => "B") "secret" false
      (EventRouter.route_request
        { event_handlers := [], command_handlers := [("/hello", [0])],
          action_handlers := [], shortcut_handlers := [],
          message_handlers := ([] : List Nat) })
      { method := "POST", path := "/", query_params := [],
        headers := [("x-slack-request-timestamp", "1"),
                    ("x-slack-signature", "v0=")],
        body := .Command { token := "t", team_id := "T1", team_domain := "d",
                           channel_id := "C1", channel_name := "general",
                           user_id := "U1", user_name := "alice",
                           command := "/hello", text := "", response_url := "R",
                           trigger_id := "T" } }
      = .ok SlackResponse.empty := by
  have h := (placeholder_routing
    { event_handlers := [], command_handlers := [("/hello", [0])],
      action_handlers := [], shortcut_handlers := [],
      message_handlers := ([] : List Nat) }
    (fun _ _ => []) (fun _ => "B") "secret" false
    { method := "POST", path := "/", query_params := [],
      headers := [("x-slack-request-timestamp", "1"),
                  ("x-slack-signature", "v0=")],
      body := .Command { token := "t", team_id := "T1", team_domain := "d",
                         channel_id := "C1", channel_name := "general",
                         user_id := "U1", user_name := "alice",
                         command := "/hello", text := "", response_url := "R",
                         trigger_id := "T" } }
    (by rfl)).2.2.1
  exact h
    { token := "t", team_id := "T1", team_domain := "d",
      channel_id := "C1", channel_name := "general",
      user_id := "U1", user_name := "alice",
      command := "/hello", text := "", response_url := "R",
      trigger_id := "T" } rfl

/-- `chrono::Duration::minutes`, with time modelled in seconds. -/
def Duration.minutes (m : Int) : Int := m * 60

/-- `OAuthState` from src/oauth/state_store.rs. -/
structure OAuthState where
  state : String
  redirect_uri : Option String
  created_at : Int
  expires_at : Int
  deriving Repr, DecidableEq

/-- `OAuthState::new` from src/oauth/state_store.rs, lines 17-28, with the
random UUID token and `Utc::now()` as parameters. -/
def OAuthState.new (now : Int) (token : String) : OAuthState :=
  { state := token, redirect_uri := none,
    created_at := now, expires_at := now + Duration.minutes 10 }

/-- `OAuthState::with_redirect_uri` from src/oauth/state_store.rs. -/
def OAuthState.with_redirect_uri (s : OAuthState) (uri : String) : OAuthState :=
  { s with redirect_uri := some uri }

/-- `OAuthState::is_expired` from src/oauth/state_store.rs. -/
def OAuthState.is_expired (s : OAuthState) (now : Int) : Bool :=
  s.expires_at < now

/-- `OAuthState::is_valid` from src/oauth/state_store.rs. -/
def OAuthState.is_valid (s : OAuthState) (now : Int) (state : String) : Bool :=
  !(s.is_expired now) && s.state == state

/-- The pluggable key-value state store (the `StateStore` trait) as an
association list keyed by the state token. -/
abbrev StateStoreData := List (String × OAuthState)

/-- `StateStore::find`. -/
def StateStore.find (store : StateStoreData) (state : String) : Option OAuthState :=
  (store.find? (fun p => p.1 == state)).map (fun p => p.2)

/-- `StateStore::save` (keyed insert; prepending realizes overwrite for the
first-match lookup). -/
def StateStore.save (store : StateStoreData) (s : OAuthState) : StateStoreData :=
  (s.state, s) :: store

/-- `StateStore::delete`. -/
def StateStore.delete (store : StateStoreData) (state : String) : StateStoreData :=
  store.filter (fun p => !(p.1 == state))

/-- `StateStore::verify_and_consume` (default trait implementation) from
src/oauth/state_store.rs, lines 57-69: find, then delete whether or not the
record is valid, returning the record only when valid. -/
def StateStore.verify_and_consume (now : Int) (store : StateStoreData)
    (state : String) : StateStoreData × Option OAuthState :=
  match StateStore.find store state with
  | some oauth_state =>
    if oauth_state.is_valid now state then
      (StateStore.delete store state, some oauth_state)
    else
      (StateStore.delete store state, none)
  | none => (store, none)

/-- `Installation` from src/oauth/installation_store.rs. -/
structure Installation where
  team_id : String
  enterprise_id : Option String
  bot_token : Option String
  bot_user_id : Option String
  user_token : Option String
  user_id : Option String
  scopes : List String
  user_scopes : List String
  installed_at : Int
  expires_at : Option Int
  deriving Repr, DecidableEq

/-- `Installation::new` from src/oauth/installation_store.rs, with `Utc::now()`
as a parameter. -/
def Installation.new (now : Int) (team_id : String) : Installation :=
  { team_id, enterprise_id := none, bot_token := none, bot_user_id := none,
    user_token := none, user_id := none, scopes := [], user_scopes := [],
    installed_at := now, expires_at := none }

/-- `Installation::with_bot_token`. -/
def Installation.with_bot_token (i : Installation) (token user_id : String) :
    Installation :=
  { i with bot_token := some token, bot_user_id := some user_id }

/-- `Installation::with_user_token`. -/
def Installation.with_user_token (i : Installation) (token user_id : String) :
    Installation :=
  { i with user_token := some token, user_id := some user_id }

/-- `Installation::with_scopes`. -/
def Installation.with_scopes (i : Installation) (scopes : List String) :
    Installation :=
  { i with scopes := scopes }

/-- `Installation::with_enterprise_id`. -/
def Installation.with_enterprise_id (i : Installation) (enterprise_id : String) :
    Installation :=
  { i with enterprise_id := some enterprise_id }

/-- The pluggable installation store as an association list keyed by
(team id, enterprise id). -/
abbrev InstallationStoreData := List ((String × Option String) × Installation)

/-- `InstallationStore::save` (keyed insert). -/
def InstallationStore.save (store : InstallationStoreData)
    (installation : Installation) : InstallationStoreData :=
  ((installation.team_id, installation.enterprise_id), installation) :: store

/-- `InstallationStore::find_user_token` (default trait implementation) from
src/oauth/installation_store.rs, lines 94-103, over an abstract
`find_by_team`. -/
def find_user_token
    (find_by_team : String → Option String → Except SlackError (Option Installation))
    (team_id user_id : String) (enterprise_id : Option String) :
    Except SlackError (Option String) :=
  match find_by_team team_id enterprise_id with
  | .error e => .error e
  | .ok installation =>
    .ok (installation.bind (fun i =>
      if i.user_id = some user_id then i.user_token else none))

/-- Parsed body of the token-endpoint reply (`OAuthAccessResponse` in
src/oauth/flow.rs; nested `team`/`enterprise`/`authed_user` objects are
flattened to the fields `complete` reads). -/
structure OAuthAccessResponse where
  ok : Bool
  error : Option String
  access_token : Option String
  bot_user_id : Option String
  app_id : String
  team_id : String
  enterprise_id : Option String
  authed_user_id : String
  authed_user_access_token : Option String
  deriving Repr, DecidableEq

/-- `OAuthFlow::exchange_code` from src/oauth/flow.rs, lines 89-113, with the
network reply (transport error or parsed response) as a parameter: a non-ok
reply becomes `OAuth(<error or "Unknown OAuth error">)`. -/
def exchange_code (httpResponse : Except SlackError OAuthAccessResponse) :
    Except SlackError OAuthAccessResponse :=
  match httpResponse with
  | .error e => .error e
  | .ok oauth_response =>
    if !oauth_response.ok then
      .error (.OAuth (oauth_response.error.getD "Unknown OAuth error"))
    else
      .ok oauth_response

/-- Configuration fields of `OAuthFlow` from src/oauth/flow.rs (the stores and
HTTP client are passed explicitly to the operations). -/
structure OAuthFlowCfg where
  client_id : String
  client_secret : String
  redirect_uri : String
  scopes : List String
  user_scopes : List String
  deriving Repr, DecidableEq

/-- Upper-case hex digit, as produced by form-urlencoding of URL query pairs. -/
def hexDigitUpper (n : Nat) : Char :=
  if n < 10 then Char.ofNat (48 + n) else Char.ofNat (55 + n)

/-- One character of `application/x-www-form-urlencoded` serialization as done
by `url::Url::query_pairs_mut().append_pair`. -/
def formEncodeChar (c : Char) : List Char :=
  if c.isAlphanum || c == '*' || c == '-' || c == '.' || c == '_' then [c]
  else if c == ' ' then ['+']
  else ['%', hexDigitUpper (c.toNat / 16 % 16), hexDigitUpper (c.toNat % 16)]

/-- Form-urlencoding of a query component. -/
def formEncode (s : String) : String :=
  String.mk (s.data.foldr (fun c acc => formEncodeChar c ++ acc) [])

/-- Authorization URL built by `OAuthFlow::start`, src/oauth/flow.rs, lines
44-56: base URL plus client_id, comma-joined scopes, redirect_uri and state,
with user_scope appended only when user scopes were requested. -/
def buildAuthorizeUrl (cfg : OAuthFlowCfg) (stateToken : String) : String :=
  let pairs := [("client_id", cfg.client_id),
                ("scope", String.intercalate "," cfg.scopes),
                ("redirect_uri", cfg.redirect_uri),
                ("state", stateToken)]
  let pairs := if cfg.user_scopes.isEmpty then pairs
               else pairs ++ [("user_scope", String.intercalate "," cfg.user_scopes)]
  "https://slack.com/oauth/v2/authorize?" ++
    String.intercalate "&"
      (pairs.map (fun p => formEncode p.1 ++ "=" ++ formEncode p.2))

/-- `OAuthFlow::start` from src/oauth/flow.rs, lines 40-57: create a fresh
state (random token and `Utc::now()` as parameters), save it, return the
authorization URL; the updated store is returned explicitly. -/
def OAuthFlow.start (cfg : OAuthFlowCfg) (now : Int) (token : String)
    (store : StateStoreData) : StateStoreData × String :=
  let state := (OAuthState.new now token).with_redirect_uri cfg.redirect_uri
  (StateStore.save store state, buildAuthorizeUrl cfg state.state)

/-- `OAuthFlow::complete` from src/oauth/flow.rs, lines 59-87: consume the
state (failing with `OAuth("Invalid or expired state")` when it is not
returned), exchange the code (network reply as a parameter), build the
Installation from the reply, and save it. Both stores are passed and returned
explicitly; the state store resulting from `verify_and_consume` is returned on
every path. -/
def OAuthFlow.complete (cfg : OAuthFlowCfg) (now : Int)
    (httpResponse : Except SlackError OAuthAccessResponse)
    (stateStore : StateStoreData) (installationStore : InstallationStoreData)
    (_code state : String) :
    StateStoreData × InstallationStoreData × Except SlackError Installation :=
  match StateStore.verify_and_consume now stateStore state with
  | (stateStore', none) =>
    (stateStore', installationStore, .error (.OAuth "Invalid or expired state"))
  | (stateStore', some _oauth_state) =>
    match exchange_code httpResponse with
    | .error e => (stateStore', installationStore, .error e)
    | .ok token_response =>
      let installation :=
        (Installation.new now token_response.team_id).with_scopes cfg.scopes
      let installation :=
        match token_response.access_token with
        | some bot =>
          installation.with_bot_token bot (token_response.bot_user_id.getD "")
        | none => installation
      let installation :=
        match token_response.authed_user_access_token with
        | some user_token =>
          installation.with_user_token user_token token_response.authed_user_id
        | none => installation
      let installation :=
        match token_response.enterprise_id with
        | some eid => installation.with_enterprise_id eid
        | none => installation
      (stateStore', InstallationStore.save installationStore installation,
        .ok installation)

/-- Deleting a key from the state store makes a subsequent find miss. -/
theorem find_after_delete (store : StateStoreData) (k : String) :
    StateStore.find (StateStore.delete store k) k = none := by
  have h : List.find? (fun p => p.1 == k)
      (List.filter (fun p => !(p.1 == k)) store) = none := by
    refine List.find?_eq_none.2 (fun x hx => ?_)
    have hkeep := (List.mem_filter.1 hx).2
    simp only [Bool.not_eq_true'] at hkeep
    simp [hkeep]
  simp [StateStore.find, StateStore.delete, h]

/-- The state store coming out of `complete` is exactly the one coming out of
`verify_and_consume`, whatever the code-exchange outcome. -/
theorem complete_state_store (cfg : OAuthFlowCfg) (now : Int)
    (resp : Except SlackError OAuthAccessResponse)
    (store : StateStoreData) (instStore : InstallationStoreData)
    (code s : String) :
    (OAuthFlow.complete cfg now resp store instStore code s).1 =
      (StateStore.verify_and_consume now store s).1 := by
  unfold OAuthFlow.complete
  rcases hv : StateStore.verify_and_consume now store s with ⟨s', opt⟩
  cases opt with
  | none => simp
  | some st =>
    cases hx : exchange_code resp with
    | error e => simp [hx]
    | ok tr => simp [hx]

/-- When the lookup finds a record, `verify_and_consume` deletes it whether or
not it is valid. -/
theorem verify_and_consume_deletes (now : Int) (store : StateStoreData)
    (s : String) (st : OAuthState) (h : StateStore.find store s = some st) :
    (StateStore.verify_and_consume now store s).1 = StateStore.delete store s := by
  simp only [StateStore.verify_and_consume, h]
  by_cases hv : st.is_valid now s <;> simp [hv]

/-- C2: OAuth state tokens are single-use — `verify_and_consume` deletes the
stored record whenever the lookup finds it (valid or not); the state store
coming out of `complete` does not depend on the code-exchange outcome (the
delete precedes it); after `start()` a first `complete` with the fresh state
token can succeed, and any second `complete` with the same state token fails
with `OAuth("Invalid or expired state")`. -/
theorem oauth_state_single_use
    (cfg : OAuthFlowCfg) (now : Int) (token code : String)
    (store : StateStoreData) (instStore : InstallationStoreData) :
    (∀ s st, StateStore.find store s = some st →
      StateStore.find (StateStore.verify_and_consume now store s).1 s = none)
    ∧
    (∀ resp resp' : Except SlackError OAuthAccessResponse, ∀ s : String,
      (OAuthFlow.complete cfg now resp store instStore code s).1 =
        (OAuthFlow.complete cfg now resp' store instStore code s).1)
    ∧
    (∀ goodResp : OAuthAccessResponse, goodResp.ok = true →
      ∃ installation,
        (OAuthFlow.complete cfg now (.ok goodResp)
          (OAuthFlow.start cfg now token store).1 instStore code token).2.2
          = .ok installation)
    ∧
    (∀ resp resp₂ : Except SlackError OAuthAccessResponse,
     ∀ instStore₂ : InstallationStoreData,
      (OAuthFlow.complete cfg now resp₂
        (OAuthFlow.complete cfg now resp
          (OAuthFlow.start cfg now token store).1 instStore code token).1
        instStore₂ code token).2.2
        = .error (.OAuth "Invalid or expired state")) := by
  have hfind₁ : StateStore.find (OAuthFlow.start cfg now token store).1 token
      = some ((OAuthState.new now token).with_redirect_uri cfg.redirect_uri) := by
    simp [OAuthFlow.start, StateStore.save, StateStore.find, List.find?,
      OAuthState.new, OAuthState.with_redirect_uri]
  have hvalid : ((OAuthState.new now token).with_redirect_uri
      cfg.redirect_uri).is_valid now token = true := by
    simp [OAuthState.is_valid, OAuthState.is_expired, OAuthState.new,
      OAuthState.with_redirect_uri, Duration.minutes]
  have hvac₁ : StateStore.verify_and_consume now
      (OAuthFlow.start cfg now token store).1 token
      = (StateStore.delete (OAuthFlow.start cfg now token store).1 token,
         some ((OAuthState.new now token).with_redirect_uri cfg.redirect_uri)) := by
    simp [StateStore.verify_and_consume, hfind₁, hvalid]
  refine ⟨?_, ?_, ?_, ?_⟩
  · intro s st h
    rw [verify_and_consume_deletes now store s st h]
    exact find_after_delete store s
  · intro resp resp' s
    rw [complete_state_store, complete_state_store]
  · intro goodResp hok
    have hx : exchange_code (.ok goodResp) = .ok goodResp := by
      simp [exchange_code, hok]
    simp only [OAuthFlow.complete, hvac₁, hx]
    exact ⟨_, rfl⟩
  · intro resp resp₂ instStore₂
    have h1 : (OAuthFlow.complete cfg now resp
        (OAuthFlow.start cfg now token store).1 instStore code token).1
        = StateStore.delete (OAuthFlow.start cfg now token store).1 token := by
      rw [complete_state_store]
      exact verify_and_consume_deletes now _ token _ hfind₁
    rw [h1]
    have h2 : StateStore.find
        (StateStore.delete (OAuthFlow.start cfg now token store).1 token) token
        = none := find_after_delete _ token
    simp [OAuthFlow.complete, StateStore.verify_and_consume, h2]

/-- Witness for C2: starting a flow at time 0 with token "tok" and completing
once with an ok token-endpoint reply yields an installation. -/
theorem oauth_state_single_use_witness :
    ∃ installation,
      (OAuthFlow.complete
        { client_id := "id", client_secret := "sec", redirect_uri := "https://r",
          scopes := ["chat:write"], user_scopes := [] }
        0
        (.ok { ok := true, error := none, access_token := some "xoxb-1",
               bot_user_id := some "B1", app_id := "A1", team_id := "T1",
               enterprise_id := none, authed_user_id := "U1",
               authed_user_access_token := none })
        (OAuthFlow.start
          { client_id := "id", client_secret := "sec", redirect_uri := "https://r",
            scopes := ["chat:write"], user_scopes := [] } 0 "tok" []).1
        [] "code" "tok").2.2
      = .ok installation := by
  exact (oauth_state_single_use
    { client_id := "id", client_secret := "sec", redirect_uri := "https://r",
      scopes := ["chat:write"], user_scopes := [] }
    0 "tok" "code" [] []).2.2.1
    { ok := true, error := none, access_token := some "xoxb-1",
      bot_user_id := some "B1", app_id := "A1", team_id := "T1",
      enterprise_id := none, authed_user_id := "U1",
      authed_user_access_token := none } rfl

/-- C5: OAuth state expiry — a fresh state expires exactly ten minutes after
creation, and `complete` on a store holding a record whose `expires_at` lies in
the past rejects it with `OAuth("Invalid or expired state")` even when the
token string matches exactly, deleting the record from the state store as a
side effect. -/
theorem oauth_state_expiry
    (cfg : OAuthFlowCfg) (now now' : Int) (token code s : String)
    (resp : Except SlackError OAuthAccessResponse)
    (store : StateStoreData) (instStore : InstallationStoreData)
    (stored : OAuthState)
    (hfind : StateStore.find store s = some stored)
    (_hmatch : stored.state = s)
    (hexp : stored.expires_at < now') :
    (OAuthState.new now token).expires_at
        = (OAuthState.new now token).created_at + Duration.minutes 10
    ∧ (OAuthFlow.complete cfg now' resp store instStore code s).2.2
        = .error (.OAuth "Invalid or expired state")
    ∧ StateStore.find (OAuthFlow.complete cfg now' resp store instStore code s).1 s
        = none := by
  have hinvalid : stored.is_valid now' s = false := by
    simp [OAuthState.is_valid, OAuthState.is_expired, hexp]
  have hvac : StateStore.verify_and_consume now' store s
      = (StateStore.delete store s, none) := by
    simp [StateStore.verify_and_consume, hfind, hinvalid]
  refine ⟨rfl, ?_, ?_⟩
  · simp [OAuthFlow.complete, hvac]
  · rw [complete_state_store, hvac]
    exact find_after_delete store s

/-- Witness for C5: a record with token "tok" that expired at time 600 is
rejected at time 601 despite the exact token match. -/
theorem oauth_state_expiry_witness :
    (OAuthFlow.complete
      { client_id := "id", client_secret := "sec", redirect_uri := "https://r",
        scopes := [], user_scopes := [] }
      601 (.error (.Http "down"))
      [("tok", { state := "tok", redirect_uri := none,
                 created_at := 0, expires_at := 600 })]
      [] "code" "tok").2.2
    = .error (.OAuth "Invalid or expired state") := by
  exact (oauth_state_expiry
    { client_id := "id", client_secret := "sec", redirect_uri := "https://r",
      scopes := [], user_scopes := [] }
    0 601 "t" "code" "tok" (.error (.Http "down"))
    [("tok", { state := "tok", redirect_uri := none,
               created_at := 0, expires_at := 600 })]
    [] { state := "tok", redirect_uri := none,
         created_at := 0, expires_at := 600 }
    (by decide) (by decide) (by decide)).2.1

/-- Counterexample for C7: the same correctly signed request verifies when its
header keys are lower-case but is rejected with `InvalidSignature` when the
keys are the capitalized `X-Slack-Request-Timestamp` / `X-Slack-Signature`
forms, so a request whose map holds the key "X-Slack-Signature" is not treated
the same as one holding "x-slack-signature". -/
theorem header_lookup_case_sensitivity_cex :
    verify_signature (fun _ _ => []) (fun _ => "") "secret"
      { method := "POST", path := "/", query_params := [],
        headers := [("x-slack-request-timestamp", "1"),
                    ("x-slack-signature", "v0=")],
        body := .Raw "b" } = .ok ()
    ∧ verify_signature (fun _ _ => []) (fun _ => "") "secret"
      { method := "POST", path := "/", query_params := [],
        headers := [("X-Slack-Request-Timestamp", "1"),
                    ("X-Slack-Signature", "v0=")],
        body := .Raw "b" } = .error .InvalidSignature := by
  exact ⟨rfl, rfl⟩

/-- C7 amended: Header lookup is by exact, case-sensitive key match —
signature verification reads exactly the keys "x-slack-request-timestamp" and
"x-slack-signature" and treats any other casing as a missing header (failing
with `InvalidSignature`); classification reads the content type from exactly
"content-type", falling back to exactly "Content-Type", and otherwise uses the
empty content type. -/
theorem header_lookup_exact_match
    (hmacSha256 : String → String → List Nat)
    (serializeBody : SlackRequestBody → String)
    (S : String) (req : SlackRequest)
    (headers : List (String × String)) (v : String) :
    (hashGet req.headers "x-slack-request-timestamp" = none →
      verify_signature hmacSha256 serializeBody S req = .error .InvalidSignature)
    ∧
    (hashGet req.headers "x-slack-signature" = none →
      verify_signature hmacSha256 serializeBody S req = .error .InvalidSignature)
    ∧
    (hashGet headers "content-type" = some v →
      contentTypeOf headers = lowerAscii v)
    ∧
    (hashGet headers "content-type" = none →
      hashGet headers "Content-Type" = some v →
      contentTypeOf headers = lowerAscii v)
    ∧
    (hashGet headers "content-type" = none →
      hashGet headers "Content-Type" = none →
      contentTypeOf headers = "") := by
  refine ⟨?_, ?_, ?_, ?_, ?_⟩
  · intro h
    simp [verify_signature, h]
  · intro h
    cases hts : hashGet req.headers "x-slack-request-timestamp" with
    | none => simp [verify_signature, hts]
    | some ts => simp [verify_signature, hts, h]
  · intro h
    simp [contentTypeOf, h, Option.orElse]
  · intro h1 h2
    simp [contentTypeOf, h1, h2, Option.orElse]
  · intro h1 h2
    simp [contentTypeOf, h1, h2, Option.orElse, lowerAscii]

/-- Witness for C7 amended: a request carrying only capitalized header names
has no "x-slack-request-timestamp" entry under exact lookup and is rejected. -/
theorem header_lookup_exact_match_witness :
    verify_signature (fun _ _ => []) (fun _ => "") "secret"
      { method := "POST", path := "/", query_params := [],
        headers := [("X-Slack-Request-Timestamp", "1"),
                    ("X-Slack-Signature", "v0=")],
        body := .Raw "b" } = .error .InvalidSignature := by
  exact (header_lookup_exact_match (fun _ _ => []) (fun _ => "") "secret"
    { method := "POST", path := "/", query_params := [],
      headers := [("X-Slack-Request-Timestamp", "1"),
                  ("X-Slack-Signature", "v0=")],
      body := .Raw "b" } [] "v").1 (by decide)

/-- `Ack` from src/context/ack.rs: the per-request acknowledged flag (a
`Mutex<bool>` in the source; per-request state, modelled by explicit state
passing) plus the wrapped request. -/
structure Ack where
  request : SlackRequest
  acknowledged : Bool
  deriving Repr, DecidableEq

/-- `Ack::new` from src/context/ack.rs. -/
def Ack.new (request : SlackRequest) : Ack :=
  { request, acknowledged := false }

/-- `Ack::mark_acknowledged` from src/context/ack.rs. -/
def Ack.mark_acknowledged (a : Ack) : Ack :=
  { a with acknowledged := true }

/-- `Ack::is_acknowledged` from src/context/ack.rs. -/
def Ack.is_acknowledged (a : Ack) : Bool :=
  a.acknowledged

/-- `Ack::empty` from src/context/ack.rs: mark acknowledged, return the empty
200 response. -/
def Ack.empty (a : Ack) : Ack × Except SlackError SlackResponse :=
  (a.mark_acknowledged, .ok SlackResponse.empty)

/-- `Ack::text` from src/context/ack.rs. -/
def Ack.text (a : Ack) (t : String) : Ack × Except SlackError SlackResponse :=
  (a.mark_acknowledged, .ok (SlackResponse.text t))

/-- `Ack::blocks` from src/context/ack.rs. -/
def Ack.blocks (a : Ack) (blocks : List JsonValue) :
    Ack × Except SlackError SlackResponse :=
  (a.mark_acknowledged,
   .ok { status_code := 200, headers := [],
         body := .Blocks { blocks, text := none, response_type := none,
                           replace_original := none, delete_original := none } })

/-- `Ack::ephemeral` from src/context/ack.rs. -/
def Ack.ephemeral (a : Ack) (t : String) : Ack × Except SlackError SlackResponse :=
  (a.mark_acknowledged,
   .ok { status_code := 200, headers := [],
         body := .Text { text := t, response_type := some "ephemeral",
                         replace_original := none, delete_original := none } })

/-- `Ack::in_channel` from src/context/ack.rs. -/
def Ack.in_channel (a : Ack) (t : String) : Ack × Except SlackError SlackResponse :=
  (a.mark_acknowledged,
   .ok { status_code := 200, headers := [],
         body := .Text { text := t, response_type := some "in_channel",
                         replace_original := none, delete_original := none } })

/-- C9: Acknowledgment idempotence — a fresh Ack is unacknowledged; after any
single response method the flag is true; a repeated call is idempotent on the
flag (and on the whole Ack value); and setting that flag is the only effect of
a response method on the Ack object (the request is untouched, and the
post-state is exactly the input with the flag set). -/
theorem ack_idempotence (req : SlackRequest) (a : Ack) (t : String)
    (bs : List JsonValue) :
    (Ack.new req).is_acknowledged = false
    ∧ (a.empty).1.is_acknowledged = true
    ∧ (a.text t).1.is_acknowledged = true
    ∧ (a.blocks bs).1.is_acknowledged = true
    ∧ (a.ephemeral t).1.is_acknowledged = true
    ∧ (a.in_channel t).1.is_acknowledged = true
    ∧ ((a.empty).1.empty).1 = (a.empty).1
    ∧ a.mark_acknowledged.mark_acknowledged = a.mark_acknowledged
    ∧ (a.empty).1 = { a with acknowledged := true }
    ∧ (a.text t).1 = { a with acknowledged := true }
    ∧ (a.blocks bs).1 = { a with acknowledged := true }
    ∧ (a.ephemeral t).1 = { a with acknowledged := true }
    ∧ (a.in_channel t).1 = { a with acknowledged := true } :=
  ⟨rfl, rfl, rfl, rfl, rfl, rfl, rfl, rfl, rfl, rfl, rfl, rfl, rfl⟩

/-- C10: User-token confinement — `find_user_token` answers `Some(token)` only
when the installation found for (team, enterprise) stores exactly the queried
user id, and then the answer is that installation's user token; when the stored
user id differs (or is absent), the answer is `None`. -/
theorem find_user_token_confinement
    (find_by_team : String → Option String → Except SlackError (Option Installation))
    (team_id user_id : String) (enterprise_id : Option String) :
    (∀ tok, find_user_token find_by_team team_id user_id enterprise_id
        = .ok (some tok) →
      ∃ i, find_by_team team_id enterprise_id = .ok (some i)
        ∧ i.user_id = some user_id
        ∧ i.user_token = some tok)
    ∧
    (∀ i, find_by_team team_id enterprise_id = .ok (some i) →
      i.user_id ≠ some user_id →
      find_user_token find_by_team team_id user_id enterprise_id = .ok none) := by
  constructor
  · intro tok h
    cases hf : find_by_team team_id enterprise_id with
    | error e => simp [find_user_token, hf] at h
    | ok installation =>
      cases installation with
      | none => simp [find_user_token, hf] at h
      | some i =>
        by_cases hu : i.user_id = some user_id
        · refine ⟨i, rfl, hu, ?_⟩
          simpa [find_user_token, hf, hu] using h
        · simp [find_user_token, hf, hu] at h
  · intro i hf hu
    simp [find_user_token, hf, hu]

/-- Witness for C10: an installation stored for user "U2" never leaks its user
token to a query for user "U1". -/
theorem find_user_token_confinement_witness :
    find_user_token
      (fun _ _ => .ok (some
        { team_id := "T1", enterprise_id := none, bot_token := some "xoxb-1",
          bot_user_id := some "B1", user_token := some "xoxp-secret",
          user_id := some "U2", scopes := [], user_scopes := [],
          installed_at := 0, expires_at := none }))
      "T1" "U1" none = .ok none := by
  exact (find_user_token_confinement
    (fun _ _ => .ok (some
      { team_id := "T1", enterprise_id := none, bot_token := some "xoxb-1",
        bot_user_id := some "B1", user_token := some "xoxp-secret",
        user_id := some "U2", scopes := [], user_scopes := [],
        installed_at := 0, expires_at := none }))
    "T1" "U1" none).2
    { team_id := "T1", enterprise_id := none, bot_token := some "xoxb-1",
      bot_user_id := some "B1", user_token := some "xoxp-secret",
      user_id := some "U2", scopes := [], user_scopes := [],
      installed_at := 0, expires_at := none }
    rfl (by decide)

end SlackServerless
